import Mathlib

set_option maxRecDepth 4000

/-!
Shallow embedding of the MeshPayRewards Soroban contract
(`contracts/hello-world/src/lib.rs`).

Addresses are opaque account identifiers; we model them as `Nat`.
`i128` values are modelled as `Int` together with an explicit range check;
`u64` values as `Nat` with an explicit range check.
Instance storage (`DataKey::Protocol`, `DataKey::PaymentCount`,
`DataKey::Payment(id)`) is modelled as a record of optional values.
A contract invocation that panics aborts without committing any storage
write, which we model by operations returning `Except Err _`.
External collaborators (authorization, token transfers, events) are
modelled as emitted intents: a successful call returns the list of
transfers issued and events published, in order.
-/

abbrev Address := Nat

/-- Error kinds of the contract, named as in the specification.
The Rust code surfaces them as panics: "Already initialized",
"Payment not found", "Protocol address not set", and the
arithmetic-overflow panics of checked integer arithmetic. -/
inductive Err where
  | AlreadyInitialized
  | PaymentNotFound
  | ProtocolNotConfigured
  | ArithmeticOverflow
deriving DecidableEq, Repr

/-- `const TOTAL_FEE_BPS: u64 = 100` -/
def TOTAL_FEE_BPS : Int := 100

/-- `const BROADCASTER_FEE_BPS: u64 = 50` -/
def BROADCASTER_FEE_BPS : Int := 50

/-- `const RELAYER_FEE_BPS: u64 = 10` -/
def RELAYER_FEE_BPS : Int := 10

/-- `const PROTOCOL_FEE_BPS: u64 = 40` -/
def PROTOCOL_FEE_BPS : Int := 40

def i128Min : Int := -(2 ^ 127)

def i128Max : Int := 2 ^ 127 - 1

def u64Max : Nat := 2 ^ 64 - 1

/-- Membership in the signed 128-bit range. -/
def inI128 (x : Int) : Prop := i128Min ≤ x ∧ x ≤ i128Max

instance (x : Int) : Decidable (inI128 x) := by
  unfold inI128; infer_instance

/-- Modelled from the spec: the crate's build profile (its `Cargo.toml` is not
part of the sources) decides whether `i128` arithmetic wraps or is checked;
the spec requires that "arithmetic overflow of the 128-bit domain on extreme
inputs must fail with `ArithmeticOverflow` rather than wrap", so every
arithmetic result is range-checked and an out-of-range result aborts the
call with `Err.ArithmeticOverflow`. -/
def checkedI128 (x : Int) : Except Err Int :=
  if inI128 x then Except.ok x else Except.error Err.ArithmeticOverflow

/-- Modelled from the spec: checked `u64` arithmetic, overflow aborts
with `Err.ArithmeticOverflow` (same build-profile consideration as
`checkedI128`). -/
def checkedU64 (n : Nat) : Except Err Nat :=
  if n ≤ u64Max then Except.ok n else Except.error Err.ArithmeticOverflow

/-- `struct Payment` of the contract. -/
structure Payment where
  sender : Address
  recipient : Address
  broadcaster : Address
  relayer : Address
  amount : Int
  claimed : Bool
deriving DecidableEq, Repr

/-- The contract-instance storage: one optional value per `DataKey` variant.
`protocol` is `DataKey::Protocol`, `paymentCount` is `DataKey::PaymentCount`
(read with `unwrap_or(0)` by the contract), `payments id` is
`DataKey::Payment(id)`. -/
structure LedgerState where
  protocol : Option Address
  paymentCount : Option Nat
  payments : Nat → Option Payment

/-- A fresh contract instance: no storage key is set. -/
def emptyLedger : LedgerState :=
  { protocol := none, paymentCount := none, payments := fun _ => none }

/-- One `token.transfer(&src, &dst, &amount)` issued on token `token`. -/
structure Transfer where
  token : Address
  src : Address
  dst : Address
  amount : Int
deriving DecidableEq, Repr

/-- One `env.events().publish((topic,), (addr, amount))`. -/
structure Event where
  topic : String
  addr : Address
  amount : Int
deriving DecidableEq, Repr

/-- `initialize(env, protocol)`: fails if `DataKey::Protocol` is already
set, otherwise stores the protocol address and sets the counter to 0. -/
def initLedger (s : LedgerState) (protocol : Address) : Except Err LedgerState :=
  if s.protocol.isSome then
    Except.error Err.AlreadyInitialized
  else
    Except.ok { s with protocol := some protocol, paymentCount := some 0 }

/-- A failed (panicking) invocation is rolled back by the host: the ledger
state after the failed call equals the state before it. `applyInit` exposes
that semantics for `initialize`. -/
def applyInit (s : LedgerState) (protocol : Address) : LedgerState × Option Err :=
  match initLedger s protocol with
  | Except.ok s' => (s', none)
  | Except.error e => (s, some e)

/-- `create_payment(env, sender, recipient, broadcaster, relayer, amount)`.
`sender.require_auth()` is delegated to the host's authorization
collaborator; an unauthorized call aborts before touching state, so we model
only authorized calls. The counter is read with `unwrap_or(0)`; the net
amount is `amount - (amount * TOTAL_FEE_BPS) / 10000` with truncating
division; the record is stored under the allocated id and the counter is
incremented. Returns the allocated `payment_id` and the new state. -/
def create_payment (s : LedgerState) (sender recipient broadcaster relayer : Address)
    (amount : Int) : Except Err (Nat × LedgerState) := do
  let payment_id : Nat := s.paymentCount.getD 0
  let grossTimesBps ← checkedI128 (amount * TOTAL_FEE_BPS)
  let total_fee : Int := grossTimesBps.tdiv 10000
  let net_amount ← checkedI128 (amount - total_fee)
  let payment : Payment :=
    { sender := sender, recipient := recipient, broadcaster := broadcaster,
      relayer := relayer, amount := net_amount, claimed := false }
  let next ← checkedU64 (payment_id + 1)
  Except.ok (payment_id,
    { s with
      payments := fun i => if i = payment_id then some payment else s.payments i,
      paymentCount := some next })

/-- `get_payment(env, payment_id)`: storage lookup, panic "Payment not
found" if absent. Also the lookup performed at the start of
`distribute_rewards`, which uses the same storage key and panic. -/
def get_payment (s : LedgerState) (payment_id : Nat) : Except Err Payment :=
  match s.payments payment_id with
  | some p => Except.ok p
  | none => Except.error Err.PaymentNotFound

/-- The `DataKey::Protocol` read of `distribute_rewards`: panic "Protocol
address not set" if `initialize` never stored it. -/
def getProtocol (s : LedgerState) : Except Err Address :=
  match s.protocol with
  | some a => Except.ok a
  | none => Except.error Err.ProtocolNotConfigured

/-- `distribute_rewards(env, payment_id, gross_amount, token_address, from)`.
`from.require_auth()` is delegated to the host. The payment is looked up
first (panic "Payment not found" if absent), then the three fees are
computed from the caller-supplied `gross_amount`, then the protocol address
is read (panic "Protocol address not set" if absent), then three transfers
are issued and three events published, in the order broadcaster, relayer,
protocol. No storage key is written. Returns the (unchanged) state together
with the transfers and events, in order. -/
def distribute_rewards (s : LedgerState) (payment_id : Nat) (gross_amount : Int)
    (token_address from_ : Address) :
    Except Err (LedgerState × List Transfer × List Event) := do
  let payment ← get_payment s payment_id
  let bProd ← checkedI128 (gross_amount * BROADCASTER_FEE_BPS)
  let broadcaster_fee : Int := bProd.tdiv 10000
  let rProd ← checkedI128 (gross_amount * RELAYER_FEE_BPS)
  let relayer_fee : Int := rProd.tdiv 10000
  let pProd ← checkedI128 (gross_amount * PROTOCOL_FEE_BPS)
  let protocol_fee : Int := pProd.tdiv 10000
  let protocol ← getProtocol s
  Except.ok (s,
    [ { token := token_address, src := from_, dst := payment.broadcaster,
        amount := broadcaster_fee },
      { token := token_address, src := from_, dst := payment.relayer,
        amount := relayer_fee },
      { token := token_address, src := from_, dst := protocol,
        amount := protocol_fee } ],
    [ { topic := "reward_broadcaster", addr := payment.broadcaster,
        amount := broadcaster_fee },
      { topic := "reward_relayer", addr := payment.relayer,
        amount := relayer_fee },
      { topic := "reward_protocol", addr := protocol,
        amount := protocol_fee } ])

/-- `get_payment_count(env)`: the counter, read with `unwrap_or(0)`. -/
def get_payment_count (s : LedgerState) : Nat :=
  s.paymentCount.getD 0

/-- `calculate_fees(env, amount)`: the three fee components are computed
independently as `amount * rate_bps / 10000` with truncating division, the
net amount by subtracting the three fees from the input. -/
def calculate_fees (amount : Int) : Except Err (Int × Int × Int × Int) := do
  let bProd ← checkedI128 (amount * BROADCASTER_FEE_BPS)
  let broadcaster_fee : Int := bProd.tdiv 10000
  let rProd ← checkedI128 (amount * RELAYER_FEE_BPS)
  let relayer_fee : Int := rProd.tdiv 10000
  let pProd ← checkedI128 (amount * PROTOCOL_FEE_BPS)
  let protocol_fee : Int := pProd.tdiv 10000
  let d1 ← checkedI128 (amount - broadcaster_fee)
  let d2 ← checkedI128 (d1 - relayer_fee)
  let net_amount ← checkedI128 (d2 - protocol_fee)
  Except.ok (net_amount, broadcaster_fee, relayer_fee, protocol_fee)

/-- Arguments of one `create_payment` call. -/
structure CreateArgs where
  sender : Address
  recipient : Address
  broadcaster : Address
  relayer : Address
  amount : Int
deriving Repr

/-- Run a sequence of `create_payment` calls, collecting the returned
payment ids in call order; a failing call aborts the run. -/
def runCreates : LedgerState → List CreateArgs → Except Err (List Nat × LedgerState)
  | s, [] => Except.ok ([], s)
  | s, a :: rest => do
    let (pid, s') ← create_payment s a.sender a.recipient a.broadcaster a.relayer a.amount
    let (ids, s'') ← runCreates s' rest
    Except.ok (pid :: ids, s'')

deriving instance DecidableEq for Except

def storedNetOnEmpty (amount : Int) : Option Int :=
  match create_payment emptyLedger 1 2 3 4 amount with
  | Except.ok (pid, s) => (s.payments pid).map Payment.amount
  | Except.error _ => none

def feeNet (amount : Int) : Option Int :=
  match calculate_fees amount with
  | Except.ok (n, _, _, _) => some n
  | Except.error _ => none

def sInitScenario : LedgerState :=
  { protocol := some 5, paymentCount := some 0, payments := fun _ => none }

def pScenario : Payment :=
  { sender := 1, recipient := 2, broadcaster := 3, relayer := 4,
    amount := 9900, claimed := false }

def sScenario : LedgerState :=
  { protocol := some 5, paymentCount := some 1,
    payments := fun i => if i = 0 then some pScenario else none }

def distStateAfter (s : LedgerState) (pid : Nat) (g : Int) (tok payer : Address) :
    Option LedgerState :=
  match distribute_rewards s pid g tok payer with
  | Except.ok (s', _, _) => some s'
  | Except.error _ => none

def claimedFlag (s : LedgerState) (pid : Nat) : Option Bool :=
  (s.payments pid).map Payment.claimed

def tsScenario : List Transfer :=
  [ { token := 7, src := 8, dst := 3, amount := 50 },
    { token := 7, src := 8, dst := 4, amount := 10 },
    { token := 7, src := 8, dst := 5, amount := 40 } ]

def esScenario : List Event :=
  [ { topic := "reward_broadcaster", addr := 3, amount := 50 },
    { topic := "reward_relayer", addr := 4, amount := 10 },
    { topic := "reward_protocol", addr := 5, amount := 40 } ]

def argsTwo : List CreateArgs :=
  [ { sender := 1, recipient := 2, broadcaster := 3, relayer := 4, amount := 10000 },
    { sender := 1, recipient := 2, broadcaster := 3, relayer := 4, amount := 500 } ]

def pSecond : Payment :=
  { sender := 1, recipient := 2, broadcaster := 3, relayer := 4,
    amount := 495, claimed := false }

def pFirstNoInit : Payment :=
  { sender := 1, recipient := 2, broadcaster := 3, relayer := 4,
    amount := 9900, claimed := false }

def sAfterTwo : LedgerState :=
  { protocol := none, paymentCount := some 2,
    payments := fun i =>
      if i = 1 then some pSecond
      else if i = 0 then some pFirstNoInit
      else none }

def pNet99 : Payment :=
  { sender := 1, recipient := 2, broadcaster := 3, relayer := 4,
    amount := 99, claimed := false }

def sAfterNet99 : LedgerState :=
  { protocol := none, paymentCount := some 1,
    payments := fun i => if i = 0 then some pNet99 else none }

def sAfterOneNoInit : LedgerState :=
  { protocol := none, paymentCount := some 1,
    payments := fun i => if i = 0 then some pFirstNoInit else none }

def sUninitWithPayment : LedgerState :=
  { protocol := none, paymentCount := some 1,
    payments := fun i => if i = 0 then some pFirstNoInit else none }

theorem ok_bind {α β : Type} (a : α) (f : α → Except Err β) :
    (Except.ok a >>= f) = f a := rfl

theorem bind_ok_elim {α β : Type} {e : Except Err α} {f : α → Except Err β} {b : β}
    (h : (e >>= f) = Except.ok b) : ∃ a, e = Except.ok a ∧ f a = Except.ok b := by
  cases e with
  | ok a => exact ⟨a, rfl, h⟩
  | error e => exact nomatch h

theorem checkedI128_eq_ok {x y : Int} (h : checkedI128 x = Except.ok y) :
    inI128 x ∧ y = x := by
  unfold checkedI128 at h
  split at h
  · exact ⟨‹_›, (Except.ok.injEq _ _ ▸ h).symm⟩
  · exact nomatch h

theorem checkedI128_of_mem {x : Int} (h : inI128 x) : checkedI128 x = Except.ok x := by
  unfold checkedI128
  exact if_pos h

theorem checkedU64_eq_ok {n m : Nat} (h : checkedU64 n = Except.ok m) :
    n ≤ u64Max ∧ m = n := by
  unfold checkedU64 at h
  split at h
  · exact ⟨‹_›, (Except.ok.injEq _ _ ▸ h).symm⟩
  · exact nomatch h

theorem checkedU64_of_le {n : Nat} (h : n ≤ u64Max) : checkedU64 n = Except.ok n := by
  unfold checkedU64
  exact if_pos h

theorem get_payment_eq_ok {s : LedgerState} {pid : Nat} {p : Payment}
    (h : get_payment s pid = Except.ok p) : s.payments pid = some p := by
  unfold get_payment at h
  revert h
  cases s.payments pid with
  | some q => intro h; injection h with h; rw [h]
  | none => intro h; exact nomatch h

theorem get_payment_of_mem {s : LedgerState} {pid : Nat} {p : Payment}
    (h : s.payments pid = some p) : get_payment s pid = Except.ok p := by
  unfold get_payment
  rw [h]

theorem getProtocol_eq_ok {s : LedgerState} {a : Address}
    (h : getProtocol s = Except.ok a) : s.protocol = some a := by
  unfold getProtocol at h
  revert h
  cases s.protocol with
  | some q => intro h; injection h with h; rw [h]
  | none => intro h; exact nomatch h

theorem getProtocol_of_mem {s : LedgerState} {a : Address}
    (h : s.protocol = some a) : getProtocol s = Except.ok a := by
  unfold getProtocol
  rw [h]

theorem calculate_fees_ok {a n b r p : Int}
    (h : calculate_fees a = Except.ok (n, b, r, p)) :
    b = (a * BROADCASTER_FEE_BPS).tdiv 10000 ∧
    r = (a * RELAYER_FEE_BPS).tdiv 10000 ∧
    p = (a * PROTOCOL_FEE_BPS).tdiv 10000 ∧
    n = a - b - r - p := by
  unfold calculate_fees at h
  obtain ⟨bP, hb, h⟩ := bind_ok_elim h
  obtain ⟨rP, hr, h⟩ := bind_ok_elim h
  obtain ⟨pP, hp, h⟩ := bind_ok_elim h
  obtain ⟨d1, hd1, h⟩ := bind_ok_elim h
  obtain ⟨d2, hd2, h⟩ := bind_ok_elim h
  obtain ⟨net, hnet, h⟩ := bind_ok_elim h
  obtain ⟨_, rfl⟩ := checkedI128_eq_ok hb
  obtain ⟨_, rfl⟩ := checkedI128_eq_ok hr
  obtain ⟨_, rfl⟩ := checkedI128_eq_ok hp
  obtain ⟨_, rfl⟩ := checkedI128_eq_ok hd1
  obtain ⟨_, rfl⟩ := checkedI128_eq_ok hd2
  obtain ⟨_, rfl⟩ := checkedI128_eq_ok hnet
  injection h with h
  injection h with h1 h
  injection h with h2 h
  injection h with h3 h4
  subst h1; subst h2; subst h3; subst h4
  refine ⟨rfl, rfl, rfl, by ring⟩

theorem create_payment_ok {s : LedgerState} {sn rc bc rl : Address} {amt : Int}
    {pid : Nat} {s' : LedgerState}
    (h : create_payment s sn rc bc rl amt = Except.ok (pid, s')) :
    pid = get_payment_count s ∧
    inI128 (amt * TOTAL_FEE_BPS) ∧
    s'.protocol = s.protocol ∧
    s'.paymentCount = some (pid + 1) ∧
    s'.payments = fun i =>
      if i = pid then
        some { sender := sn, recipient := rc, broadcaster := bc, relayer := rl,
               amount := amt - (amt * TOTAL_FEE_BPS).tdiv 10000, claimed := false }
      else s.payments i := by
  unfold create_payment at h
  obtain ⟨gP, hg, h⟩ := bind_ok_elim h
  obtain ⟨net, hnet, h⟩ := bind_ok_elim h
  obtain ⟨nx, hnx, h⟩ := bind_ok_elim h
  obtain ⟨hgm, rfl⟩ := checkedI128_eq_ok hg
  obtain ⟨_, rfl⟩ := checkedI128_eq_ok hnet
  obtain ⟨hle, rfl⟩ := checkedU64_eq_ok hnx
  injection h with h
  injection h with h1 h2
  subst h1
  subst h2
  exact ⟨rfl, hgm, rfl, rfl, rfl⟩

theorem distribute_rewards_ok {s : LedgerState} {pid : Nat} {g : Int}
    {tok payer : Address} {s' : LedgerState} {ts : List Transfer} {es : List Event}
    (h : distribute_rewards s pid g tok payer = Except.ok (s', ts, es)) :
    ∃ p proto,
      s.payments pid = some p ∧
      s.protocol = some proto ∧
      s' = s ∧
      ts = [ { token := tok, src := payer, dst := p.broadcaster,
               amount := (g * BROADCASTER_FEE_BPS).tdiv 10000 },
             { token := tok, src := payer, dst := p.relayer,
               amount := (g * RELAYER_FEE_BPS).tdiv 10000 },
             { token := tok, src := payer, dst := proto,
               amount := (g * PROTOCOL_FEE_BPS).tdiv 10000 } ] ∧
      es = [ { topic := "reward_broadcaster", addr := p.broadcaster,
               amount := (g * BROADCASTER_FEE_BPS).tdiv 10000 },
             { topic := "reward_relayer", addr := p.relayer,
               amount := (g * RELAYER_FEE_BPS).tdiv 10000 },
             { topic := "reward_protocol", addr := proto,
               amount := (g * PROTOCOL_FEE_BPS).tdiv 10000 } ] := by
  unfold distribute_rewards at h
  obtain ⟨p, hp, h⟩ := bind_ok_elim h
  obtain ⟨bP, hb, h⟩ := bind_ok_elim h
  obtain ⟨rP, hr, h⟩ := bind_ok_elim h
  obtain ⟨pP, hpp, h⟩ := bind_ok_elim h
  obtain ⟨proto, hproto, h⟩ := bind_ok_elim h
  obtain ⟨_, rfl⟩ := checkedI128_eq_ok hb
  obtain ⟨_, rfl⟩ := checkedI128_eq_ok hr
  obtain ⟨_, rfl⟩ := checkedI128_eq_ok hpp
  have hp' := get_payment_eq_ok hp
  have hproto' := getProtocol_eq_ok hproto
  injection h with h
  injection h with h1 h
  injection h with h2 h3
  exact ⟨p, proto, hp', hproto', h1.symm, h2.symm, h3.symm⟩

theorem tdiv_fee_bounds (a k : Int) (hk0 : 0 ≤ k) (hk : k ≤ 10000) :
    (0 ≤ a → 0 ≤ (a * k).tdiv 10000 ∧ (a * k).tdiv 10000 ≤ a) ∧
    (a ≤ 0 → a ≤ (a * k).tdiv 10000 ∧ (a * k).tdiv 10000 ≤ 0) := by
  have habs : ((a * k).tdiv 10000).natAbs = a.natAbs * k.natAbs / 10000 := by
    rw [Int.natAbs_tdiv, Int.natAbs_mul]
    rfl
  have hkabs : k.natAbs ≤ 10000 := by omega
  have hle : ((a * k).tdiv 10000).natAbs ≤ a.natAbs := by
    rw [habs]
    calc a.natAbs * k.natAbs / 10000
        ≤ a.natAbs * 10000 / 10000 :=
          Nat.div_le_div_right (Nat.mul_le_mul_left _ hkabs)
      _ = a.natAbs := Nat.mul_div_cancel _ (by norm_num)
  constructor
  · intro ha
    have h0 : 0 ≤ (a * k).tdiv 10000 :=
      Int.tdiv_nonneg (mul_nonneg ha hk0) (by norm_num)
    omega
  · intro ha
    have hmn : a * k ≤ 0 := by
      have := mul_le_mul_of_nonneg_right ha hk0
      simpa using this
    have h0 : (a * k).tdiv 10000 ≤ 0 := by
      have h1 : (0 : Int) ≤ -(a * k) := by linarith
      have h2 : 0 ≤ (-(a * k)).tdiv 10000 := Int.tdiv_nonneg h1 (by norm_num)
      rw [Int.neg_tdiv] at h2
      omega
    omega

theorem inI128_sub_fee {a : Int} (ha : inI128 a) (k : Int)
    (hk0 : 0 ≤ k) (hk : k ≤ 10000) :
    inI128 (a - (a * k).tdiv 10000) := by
  obtain ⟨h1, h2⟩ := ha
  have hb := tdiv_fee_bounds a k hk0 hk
  simp only [inI128, i128Min, i128Max] at *
  rcases le_total 0 a with hs | hs
  · obtain ⟨hb1, hb2⟩ := hb.1 hs
    constructor <;> nlinarith
  · obtain ⟨hb1, hb2⟩ := hb.2 hs
    constructor <;> nlinarith

theorem inI128_mul_smaller {g : Int} (h : inI128 (g * 50)) :
    inI128 (g * 10) ∧ inI128 (g * 40) := by
  simp only [inI128, i128Min, i128Max] at *
  norm_num at *
  omega

theorem initLedger_ok {s : LedgerState} {p : Address} {s' : LedgerState}
    (h : initLedger s p = Except.ok s') :
    s.protocol = none ∧
    s' = { s with protocol := some p, paymentCount := some 0 } := by
  unfold initLedger at h
  split at h
  · exact nomatch h
  · next hns =>
    refine ⟨Option.not_isSome_iff_eq_none.mp hns, ?_⟩
    injection h with h
    exact h.symm

theorem initLedger_err {s : LedgerState} {a : Address} (hs : s.protocol = some a)
    (p : Address) : initLedger s p = Except.error Err.AlreadyInitialized := by
  unfold initLedger
  rw [hs]
  rfl

theorem create_payment_succeeds (s : LedgerState) (sn rc bc rl : Address) {amt : Int}
    (ha : inI128 amt) (h100 : inI128 (amt * TOTAL_FEE_BPS))
    (hcnt : get_payment_count s + 1 ≤ u64Max) :
    create_payment s sn rc bc rl amt =
      Except.ok (get_payment_count s,
        { s with
          payments := fun i =>
            if i = get_payment_count s then
              some { sender := sn, recipient := rc, broadcaster := bc, relayer := rl,
                     amount := amt - (amt * TOTAL_FEE_BPS).tdiv 10000, claimed := false }
            else s.payments i,
          paymentCount := some (get_payment_count s + 1) }) := by
  have h2 : checkedI128 (amt - (amt * TOTAL_FEE_BPS).tdiv 10000) =
      Except.ok (amt - (amt * TOTAL_FEE_BPS).tdiv 10000) :=
    checkedI128_of_mem (inI128_sub_fee ha TOTAL_FEE_BPS (by norm_num [TOTAL_FEE_BPS])
      (by norm_num [TOTAL_FEE_BPS]))
  have h3 : checkedU64 (s.paymentCount.getD 0 + 1) =
      Except.ok (s.paymentCount.getD 0 + 1) :=
    checkedU64_of_le (by simpa [get_payment_count] using hcnt)
  simp only [create_payment, get_payment_count, checkedI128_of_mem h100, h2, h3, ok_bind]

theorem distribute_rewards_succeeds {s : LedgerState} {pid : Nat} {p : Payment}
    {proto : Address} (g : Int) (tok payer : Address)
    (hp : s.payments pid = some p) (hproto : s.protocol = some proto)
    (h50 : inI128 (g * BROADCASTER_FEE_BPS)) :
    distribute_rewards s pid g tok payer =
      Except.ok (s,
        [ { token := tok, src := payer, dst := p.broadcaster,
            amount := (g * BROADCASTER_FEE_BPS).tdiv 10000 },
          { token := tok, src := payer, dst := p.relayer,
            amount := (g * RELAYER_FEE_BPS).tdiv 10000 },
          { token := tok, src := payer, dst := proto,
            amount := (g * PROTOCOL_FEE_BPS).tdiv 10000 } ],
        [ { topic := "reward_broadcaster", addr := p.broadcaster,
            amount := (g * BROADCASTER_FEE_BPS).tdiv 10000 },
          { topic := "reward_relayer", addr := p.relayer,
            amount := (g * RELAYER_FEE_BPS).tdiv 10000 },
          { topic := "reward_protocol", addr := proto,
            amount := (g * PROTOCOL_FEE_BPS).tdiv 10000 } ]) := by
  have hmul := inI128_mul_smaller (by simpa [BROADCASTER_FEE_BPS] using h50)
  have h10 : checkedI128 (g * RELAYER_FEE_BPS) = Except.ok (g * RELAYER_FEE_BPS) :=
    checkedI128_of_mem (by simpa [RELAYER_FEE_BPS] using hmul.1)
  have h40 : checkedI128 (g * PROTOCOL_FEE_BPS) = Except.ok (g * PROTOCOL_FEE_BPS) :=
    checkedI128_of_mem (by simpa [PROTOCOL_FEE_BPS] using hmul.2)
  simp only [distribute_rewards, get_payment_of_mem hp, getProtocol_of_mem hproto,
    checkedI128_of_mem h50, h10, h40, ok_bind]

theorem runCreates_ok_ids : ∀ (args : List CreateArgs) (s : LedgerState)
    (ids : List Nat) (s' : LedgerState),
    runCreates s args = Except.ok (ids, s') →
    ids = List.range' (get_payment_count s) args.length ∧
    get_payment_count s' = get_payment_count s + args.length := by
  intro args
  induction args with
  | nil =>
    intro s ids s' h
    unfold runCreates at h
    injection h with h
    injection h with h1 h2
    subst h1; subst h2
    exact ⟨rfl, rfl⟩
  | cons a rest ih =>
    intro s ids s' h
    unfold runCreates at h
    obtain ⟨⟨pid, s₁⟩, hc, h⟩ := bind_ok_elim h
    obtain ⟨⟨ids₂, s₂⟩, hr, h⟩ := bind_ok_elim h
    obtain ⟨hpid, _, _, hcnt, _⟩ := create_payment_ok hc
    have hc₁ : get_payment_count s₁ = pid + 1 := by
      unfold get_payment_count
      rw [hcnt]
      rfl
    obtain ⟨hids₂, hcnt₂⟩ := ih s₁ ids₂ s₂ hr
    injection h with h
    injection h with h1 h2
    subst h1; subst h2
    constructor
    · rw [hids₂, hc₁, hpid, List.length_cons, List.range'_succ]
    · rw [hcnt₂, hc₁, hpid, List.length_cons]
      omega

theorem error_bind {α β : Type} (e : Err) (f : α → Except Err β) :
    ((Except.error e : Except Err α) >>= f) = Except.error e := rfl

theorem bind_error_elim {α β : Type} {e : Except Err α} {f : α → Except Err β} {err : Err}
    (h : (e >>= f) = Except.error err) :
    e = Except.error err ∨ ∃ a, e = Except.ok a ∧ f a = Except.error err := by
  cases e with
  | ok a => exact Or.inr ⟨a, rfl, h⟩
  | error e' =>
    left
    rw [error_bind] at h
    injection h with h
    rw [h]

theorem checkedI128_eq_error {x : Int} {e : Err}
    (h : checkedI128 x = Except.error e) : e = Err.ArithmeticOverflow := by
  unfold checkedI128 at h
  split at h
  · exact nomatch h
  · injection h with h
    exact h.symm

theorem checkedU64_eq_error {n : Nat} {e : Err}
    (h : checkedU64 n = Except.error e) : e = Err.ArithmeticOverflow := by
  unfold checkedU64 at h
  split at h
  · exact nomatch h
  · injection h with h
    exact h.symm

theorem create_payment_error {s : LedgerState} {sn rc bc rl : Address} {amt : Int}
    {e : Err} (h : create_payment s sn rc bc rl amt = Except.error e) :
    e = Err.ArithmeticOverflow := by
  unfold create_payment at h
  rcases bind_error_elim h with h1 | ⟨a, _, h⟩
  · exact checkedI128_eq_error h1
  rcases bind_error_elim h with h1 | ⟨b, _, h⟩
  · exact checkedI128_eq_error h1
  rcases bind_error_elim h with h1 | ⟨c, _, h⟩
  · exact checkedU64_eq_error h1
  · exact nomatch h

/-- Claim C1: whenever `calculate_fees` returns `(net, broadcaster_fee,
relayer_fee, protocol_fee)` for an input amount, the four components sum
back to the input, the net being derived by subtracting the three fees. -/
theorem C1_fee_conservation (a n b r p : Int)
    (h : calculate_fees a = Except.ok (n, b, r, p)) :
    n + b + r + p = a ∧ n = a - b - r - p := by
  obtain ⟨_, _, _, hn⟩ := calculate_fees_ok h
  exact ⟨by omega, hn⟩

theorem C1_fee_conservation_witness :
    calculate_fees 10000 = Except.ok (9900, 50, 10, 40) ∧
    ((9900 : Int) + 50 + 10 + 40 = 10000 ∧ (9900 : Int) = 10000 - 50 - 10 - 40) :=
  ⟨by decide, C1_fee_conservation 10000 9900 50 10 40 (by decide)⟩

/-- Claim C2: each fee component returned by `calculate_fees` is computed
independently as `amount * rate_bps / 10000` with truncating
(round-toward-zero) division (`Int.tdiv`), with rates 50, 10, 40 basis
points, and the two concrete scenarios from the spec hold. -/
theorem C2_fee_components :
    (∀ a n b r p : Int, calculate_fees a = Except.ok (n, b, r, p) →
      b = (a * 50).tdiv 10000 ∧ r = (a * 10).tdiv 10000 ∧ p = (a * 40).tdiv 10000) ∧
    calculate_fees 10000 = Except.ok (9900, 50, 10, 40) ∧
    calculate_fees 1 = Except.ok (1, 0, 0, 0) := by
  refine ⟨?_, by decide, by decide⟩
  intro a n b r p h
  obtain ⟨hb, hr, hp, _⟩ := calculate_fees_ok h
  exact ⟨by simpa [BROADCASTER_FEE_BPS] using hb,
         by simpa [RELAYER_FEE_BPS] using hr,
         by simpa [PROTOCOL_FEE_BPS] using hp⟩

theorem C2_fee_components_witness :
    calculate_fees 20000 = Except.ok (19800, 100, 20, 80) ∧
    ((100 : Int) = ((20000 : Int) * 50).tdiv 10000 ∧
     (20 : Int) = ((20000 : Int) * 10).tdiv 10000 ∧
     (80 : Int) = ((20000 : Int) * 40).tdiv 10000) :=
  ⟨by decide, C2_fee_components.1 20000 19800 100 20 80 (by decide)⟩

/-- Claim C3 fails on the code: for input amount 100, `create_payment`
stores a net amount of 99 (computed with the single combined
`TOTAL_FEE_BPS` subtraction), while the net component of `calculate_fees`
is 100 (three independently truncated fees, all zero). -/
theorem C3_stored_net_cex :
    storedNetOnEmpty 100 = some 99 ∧ feeNet 100 = some 100 ∧
    some (99 : Int) ≠ some (100 : Int) :=
  ⟨by decide, by decide, by decide⟩

/-- Claim C3 as amended: a successful `create_payment` stores a `Payment`
whose amount is `amount - (amount * TOTAL_FEE_BPS).tdiv 10000`, i.e. the
input minus a single combined total-fee computation (which can differ from
the net component of `calculate_fees`). -/
theorem C3_stored_net_amended (s : LedgerState) (sn rc bc rl : Address) (amt : Int)
    (pid : Nat) (s' : LedgerState)
    (h : create_payment s sn rc bc rl amt = Except.ok (pid, s')) :
    s'.payments pid =
      some { sender := sn, recipient := rc, broadcaster := bc, relayer := rl,
             amount := amt - (amt * 100).tdiv 10000, claimed := false } := by
  obtain ⟨_, _, _, _, hpay⟩ := create_payment_ok h
  rw [hpay]
  simp [TOTAL_FEE_BPS]

theorem C3_stored_net_amended_witness :
    create_payment emptyLedger 1 2 3 4 100 = Except.ok (0, sAfterNet99) ∧
    sAfterNet99.payments 0 =
      some { sender := 1, recipient := 2, broadcaster := 3, relayer := 4,
             amount := 100 - ((100 : Int) * 100).tdiv 10000, claimed := false } :=
  ⟨rfl, C3_stored_net_amended emptyLedger 1 2 3 4 100 0 sAfterNet99 rfl⟩

/-- Claim C4 fails on the code: after `initialize`, `create_payment` and a
successful `distribute_rewards` on the created payment, the stored record
is unchanged and its `claimed` flag is still `false` — `distribute_rewards`
never flips it to `true`. -/
theorem C4_claimed_never_flipped_cex :
    initLedger emptyLedger 5 = Except.ok sInitScenario ∧
    create_payment sInitScenario 1 2 3 4 10000 = Except.ok (0, sScenario) ∧
    distStateAfter sScenario 0 10000 7 8 = some sScenario ∧
    claimedFlag sScenario 0 = some false ∧
    some false ≠ some true :=
  ⟨rfl, rfl, rfl, rfl, by decide⟩

/-- Claim C4 as amended: a successful `distribute_rewards` call performs no
storage write at all: the ledger state (and hence every field of every
stored record, including `claimed`) is left unchanged. -/
theorem C4_distribute_frame (s : LedgerState) (pid : Nat) (g : Int)
    (tok payer : Address) (s' : LedgerState) (ts : List Transfer) (es : List Event)
    (h : distribute_rewards s pid g tok payer = Except.ok (s', ts, es)) :
    s' = s := by
  obtain ⟨p, proto, _, _, hss, _, _⟩ := distribute_rewards_ok h
  exact hss

theorem C4_distribute_frame_witness :
    distribute_rewards sScenario 0 10000 7 8 =
      Except.ok (sScenario, tsScenario, esScenario) ∧ sScenario = sScenario :=
  ⟨rfl, C4_distribute_frame sScenario 0 10000 7 8 sScenario tsScenario esScenario rfl⟩

/-- Claim C5: on a ledger holding a payment under `payment_id` and a
configured protocol address, a successful `distribute_rewards` issues
exactly three transfers computed from the caller-supplied gross amount
(payer to the record's broadcaster of `g*50/10000`, payer to the record's
relayer of `g*10/10000`, payer to the stored protocol address of
`g*40/10000`) and emits three events, in the fixed order broadcaster,
relayer, protocol. -/
theorem C5_distribute_transfers (s : LedgerState) (pid : Nat) (g : Int)
    (tok payer : Address) (p : Payment) (proto : Address)
    (hp : s.payments pid = some p) (hproto : s.protocol = some proto)
    (h50 : inI128 (g * 50)) :
    distribute_rewards s pid g tok payer =
      Except.ok (s,
        [ { token := tok, src := payer, dst := p.broadcaster,
            amount := (g * 50).tdiv 10000 },
          { token := tok, src := payer, dst := p.relayer,
            amount := (g * 10).tdiv 10000 },
          { token := tok, src := payer, dst := proto,
            amount := (g * 40).tdiv 10000 } ],
        [ { topic := "reward_broadcaster", addr := p.broadcaster,
            amount := (g * 50).tdiv 10000 },
          { topic := "reward_relayer", addr := p.relayer,
            amount := (g * 10).tdiv 10000 },
          { topic := "reward_protocol", addr := proto,
            amount := (g * 40).tdiv 10000 } ]) := by
  have := distribute_rewards_succeeds g tok payer hp hproto
    (by simpa [BROADCASTER_FEE_BPS] using h50)
  simpa [BROADCASTER_FEE_BPS, RELAYER_FEE_BPS, PROTOCOL_FEE_BPS] using this

theorem C5_distribute_transfers_witness :
    sScenario.payments 0 = some pScenario ∧
    distribute_rewards sScenario 0 10000 7 8 =
      Except.ok (sScenario, tsScenario, esScenario) :=
  ⟨rfl, C5_distribute_transfers sScenario 0 10000 7 8 pScenario 5 rfl rfl (by decide)⟩

/-- Claim C6: once `initialize` has succeeded, every later `initialize`
call fails with `AlreadyInitialized`, and — since a panicking invocation
is rolled back — the ledger state after the failed second call equals the
state after the first call. -/
theorem C6_initialize_once (s0 s1 : LedgerState) (p p' : Address)
    (h : initLedger s0 p = Except.ok s1) :
    initLedger s1 p' = Except.error Err.AlreadyInitialized ∧
    applyInit s1 p' = (s1, some Err.AlreadyInitialized) := by
  obtain ⟨_, rfl⟩ := initLedger_ok h
  have he := initLedger_err (s := { s0 with protocol := some p, paymentCount := some 0 })
    (a := p) rfl p'
  refine ⟨he, ?_⟩
  unfold applyInit
  rw [he]

theorem C6_initialize_once_witness :
    initLedger sInitScenario 6 = Except.error Err.AlreadyInitialized ∧
    applyInit sInitScenario 6 = (sInitScenario, some Err.AlreadyInitialized) :=
  C6_initialize_once emptyLedger sInitScenario 5 6 rfl

/-- Claim C7: `get_payment_count` returns 0 on a fresh ledger; from any
state whose counter reads 0 (fresh or just initialized), a successful run
of `n` `create_payment` calls returns the payment ids `0, 1, ..., n-1` in
call order — no gaps, no reuse — and leaves the counter at exactly `n`. -/
theorem C7_payment_counter :
    get_payment_count emptyLedger = 0 ∧
    ∀ (s0 : LedgerState) (args : List CreateArgs) (ids : List Nat) (s' : LedgerState),
      get_payment_count s0 = 0 →
      runCreates s0 args = Except.ok (ids, s') →
      ids = List.range args.length ∧ get_payment_count s' = args.length := by
  refine ⟨rfl, ?_⟩
  intro s0 args ids s' h0 h
  obtain ⟨hids, hcnt⟩ := runCreates_ok_ids args s0 ids s' h
  rw [h0] at hids hcnt
  exact ⟨by rw [hids, List.range_eq_range'], by omega⟩

theorem C7_payment_counter_witness :
    get_payment_count emptyLedger = 0 ∧
    ([0, 1] = List.range argsTwo.length ∧ get_payment_count sAfterTwo = argsTwo.length) :=
  ⟨rfl, C7_payment_counter.2 emptyLedger argsTwo [0, 1] sAfterTwo rfl rfl⟩

/-- Claim C8 fails on the code: on the fresh (never-initialized) ledger, a
`distribute_rewards` call with an unknown payment id fails with
`PaymentNotFound`, not `ProtocolNotConfigured` — the payment lookup runs
before the protocol check. -/
theorem C8_uninitialized_distribute_cex :
    distribute_rewards emptyLedger 0 10000 7 8 = Except.error Err.PaymentNotFound ∧
    Err.PaymentNotFound ≠ Err.ProtocolNotConfigured :=
  ⟨rfl, by decide⟩

/-- Claim C8 as amended: on a ledger where `initialize` was never called, a
`distribute_rewards` call whose payment id references a stored record (and
whose fee multiplications stay in the i128 range) fails with
`ProtocolNotConfigured`. -/
theorem C8_uninitialized_distribute_amended (s : LedgerState) (pid : Nat) (g : Int)
    (tok payer : Address) (p : Payment)
    (hnone : s.protocol = none) (hp : s.payments pid = some p)
    (h50 : inI128 (g * 50)) :
    distribute_rewards s pid g tok payer = Except.error Err.ProtocolNotConfigured := by
  have hmul := inI128_mul_smaller h50
  have hgp : getProtocol s = Except.error Err.ProtocolNotConfigured := by
    unfold getProtocol
    rw [hnone]
  simp only [distribute_rewards, get_payment_of_mem hp,
    checkedI128_of_mem (show inI128 (g * BROADCASTER_FEE_BPS) by
      simpa [BROADCASTER_FEE_BPS] using h50),
    checkedI128_of_mem (show inI128 (g * RELAYER_FEE_BPS) by
      simpa [RELAYER_FEE_BPS] using hmul.1),
    checkedI128_of_mem (show inI128 (g * PROTOCOL_FEE_BPS) by
      simpa [PROTOCOL_FEE_BPS] using hmul.2),
    hgp, ok_bind, error_bind]

theorem C8_uninitialized_distribute_amended_witness :
    distribute_rewards sUninitWithPayment 0 10000 7 8 =
      Except.error Err.ProtocolNotConfigured :=
  C8_uninitialized_distribute_amended sUninitWithPayment 0 10000 7 8 pFirstNoInit
    rfl rfl (by decide)

/-- Claim C9: for every i128 input amount for which one of the fee
multiplications `amount * rate_bps` leaves the signed 128-bit range,
`calculate_fees` fails with `ArithmeticOverflow` instead of wrapping. -/
theorem C9_overflow_fails (a : Int) (ha : inI128 a)
    (hov : ¬ inI128 (a * 50) ∨ ¬ inI128 (a * 10) ∨ ¬ inI128 (a * 40)) :
    calculate_fees a = Except.error Err.ArithmeticOverflow := by
  have h50 : ¬ inI128 (a * 50) := by
    rcases hov with h | h | h
    · exact h
    · exact fun hc => h (inI128_mul_smaller hc).1
    · exact fun hc => h (inI128_mul_smaller hc).2
  have hb : checkedI128 (a * BROADCASTER_FEE_BPS) = Except.error Err.ArithmeticOverflow := by
    unfold checkedI128
    rw [if_neg (by simpa [BROADCASTER_FEE_BPS] using h50)]
  simp only [calculate_fees, hb, error_bind]

theorem C9_overflow_fails_witness :
    inI128 ((2 : Int) ^ 126) ∧ ¬ inI128 ((2 : Int) ^ 126 * 50) ∧
    calculate_fees ((2 : Int) ^ 126) = Except.error Err.ArithmeticOverflow :=
  ⟨by decide, by decide, C9_overflow_fails ((2 : Int) ^ 126) (by decide) (Or.inl (by decide))⟩

/-- Claim C10: `create_payment` performs no initialization check — it can
never fail with `ProtocolNotConfigured` (its only failure mode is
arithmetic overflow), and on the fresh ledger an (authorized, in-range)
call succeeds, reads the missing counter as 0, returns payment id 0 and
stores the record. -/
theorem C10_create_no_init_check :
    (∀ (s : LedgerState) (sn rc bc rl : Address) (amt : Int),
      create_payment s sn rc bc rl amt ≠ Except.error Err.ProtocolNotConfigured) ∧
    (∀ (sn rc bc rl : Address) (amt : Int), inI128 amt → inI128 (amt * 100) →
      create_payment emptyLedger sn rc bc rl amt =
        Except.ok (0,
          { protocol := none, paymentCount := some 1,
            payments := fun i =>
              if i = 0 then
                some { sender := sn, recipient := rc, broadcaster := bc,
                       relayer := rl, amount := amt - (amt * 100).tdiv 10000,
                       claimed := false }
              else none })) := by
  constructor
  · intro s sn rc bc rl amt h
    exact absurd (create_payment_error h) (by decide)
  · intro sn rc bc rl amt ha h100
    exact create_payment_succeeds emptyLedger sn rc bc rl ha
      (by simpa [TOTAL_FEE_BPS] using h100) (by decide)

theorem C10_create_no_init_check_witness :
    create_payment emptyLedger 1 2 3 4 10000 ≠ Except.error Err.ProtocolNotConfigured ∧
    create_payment emptyLedger 1 2 3 4 10000 = Except.ok (0, sAfterOneNoInit) :=
  ⟨C10_create_no_init_check.1 emptyLedger 1 2 3 4 10000,
   C10_create_no_init_check.2 1 2 3 4 10000 (by decide) (by decide)⟩
